import Mathlib

/-
  Verification of the option-scoring program in src/app.py.

  The scoring core is the function score_option (app.py lines 13-149) together
  with the helper get_days_to_expiration (lines 6-11) and the moneyness-ratio
  derivation in main (line 221).  Python floats are modelled as rationals,
  Python ints as integers, option_type as a string, and the human-readable
  reason strings as an inductive tag type (the numeric interpolations in the
  reason strings carry no logic).  The mutable pair (score, reasons) threaded
  through the body is modelled as an explicit state.

  A central fact about this code: the premium-composition step at lines
  116-119 reads the name strike, which is not a parameter of score_option and
  is not bound at module scope (it is only a local variable of main, line
  188), so every execution of score_option raises NameError there, after the
  first seven category blocks have run and before the premium scoring at
  lines 121-135 and the verdict mapping at lines 138-147.
-/

/-- One tag per reason-string append site in score_option. -/
inductive Reason where
  | strongUptrend | weakUptrend | rsiBullish | rsiOverbought
  | strongDowntrend | weakDowntrend | rsiBearish | rsiOversold
  | highDelta | moderateDelta | lowDelta
  | veryHighIV | moderateIV | lowIV
  | highLiquidity | highVolumeModerateOI | moderateLiquidity | moderateVolumeLowOI | lowLiquidity
  | veryShortHighDelta | veryShortLowDelta | moderateTime | longerTime | beyond30
  | deepITMCall | slightlyITMCall | nearATMCall | otmCall
  | deepITMPut | slightlyITMPut | nearATMPut | otmPut
  | mostlyIntrinsic | decentBalance | mostlyExtrinsic | premiumMixOk
  deriving DecidableEq, Repr

/-- The accumulating (score, reasons) pair of score_option. -/
abbrev ScoreState := Int × List Reason

/-- The state at the top of score_option (lines 15-16): score = 0, reasons = []. -/
abbrev initState : ScoreState := ((0 : Int), ([] : List Reason))

/-- Result of a Python call: a normal return, or an uncaught NameError. -/
inductive PyResult (α : Type) where
  | ok (a : α)
  | nameError (missing : String)
  deriving DecidableEq, Repr

/-- Lines 18-23 and 30-34 of app.py: the trend block.  Any option_type other
than the string call takes the else (put) branch. -/
def trendBlock (option_type : String) (stock_price ma20 ma50 : ℚ) (s : ScoreState) : ScoreState :=
  if option_type = "call" then
    if stock_price > ma20 ∧ stock_price > ma50 then (s.1 + 2, s.2 ++ [Reason.strongUptrend])
    else (s.1, s.2 ++ [Reason.weakUptrend])
  else
    if stock_price < ma20 ∧ stock_price < ma50 then (s.1 + 2, s.2 ++ [Reason.strongDowntrend])
    else (s.1, s.2 ++ [Reason.weakDowntrend])

/-- Lines 24-28 and 35-39 of app.py: the RSI block.  Note that both the call
chain (if 50 <= rsi <= 70 / elif rsi > 70) and the put chain
(if 30 <= rsi <= 50 / elif rsi < 30) have no final else: in the remaining
case the block changes nothing and appends no reason. -/
def rsiBlock (option_type : String) (rsi : ℚ) (s : ScoreState) : ScoreState :=
  if option_type = "call" then
    if 50 ≤ rsi ∧ rsi ≤ 70 then (s.1 + 1, s.2 ++ [Reason.rsiBullish])
    else if rsi > 70 then (s.1, s.2 ++ [Reason.rsiOverbought])
    else s
  else
    if 30 ≤ rsi ∧ rsi ≤ 50 then (s.1 + 1, s.2 ++ [Reason.rsiBearish])
    else if rsi < 30 then (s.1, s.2 ++ [Reason.rsiOversold])
    else s

/-- Lines 41-48 of app.py: the delta tier block. -/
def deltaBlock (delta : ℚ) (s : ScoreState) : ScoreState :=
  if delta ≥ 0.7 then (s.1 + 2, s.2 ++ [Reason.highDelta])
  else if 0.35 ≤ delta ∧ delta < 0.7 then (s.1 + 1, s.2 ++ [Reason.moderateDelta])
  else (s.1, s.2 ++ [Reason.lowDelta])

/-- Lines 50-57 of app.py: the implied-volatility block. -/
def ivBlock (iv : ℚ) (s : ScoreState) : ScoreState :=
  if iv > 150 then (s.1, s.2 ++ [Reason.veryHighIV])
  else if 80 ≤ iv ∧ iv ≤ 150 then (s.1 + 1, s.2 ++ [Reason.moderateIV])
  else (s.1 + 1, s.2 ++ [Reason.lowIV])

/-- Lines 59-73 of app.py: the liquidity block. -/
def liquidityBlock (volume open_interest : Int) (s : ScoreState) : ScoreState :=
  if volume ≥ 500 then
    if open_interest ≥ 500 then (s.1 + 2, s.2 ++ [Reason.highLiquidity])
    else (s.1 + 1, s.2 ++ [Reason.highVolumeModerateOI])
  else if volume ≥ 100 then
    if open_interest ≥ 100 then (s.1 + 1, s.2 ++ [Reason.moderateLiquidity])
    else (s.1, s.2 ++ [Reason.moderateVolumeLowOI])
  else (s.1, s.2 ++ [Reason.lowLiquidity])

/-- Lines 75-88 of app.py: the time-to-expiration block. -/
def timeBlock (days_to_exp : Int) (delta : ℚ) (s : ScoreState) : ScoreState :=
  if days_to_exp ≤ 5 then
    if delta ≥ 0.7 then (s.1 + 2, s.2 ++ [Reason.veryShortHighDelta])
    else (s.1, s.2 ++ [Reason.veryShortLowDelta])
  else if 6 ≤ days_to_exp ∧ days_to_exp ≤ 14 then (s.1 + 2, s.2 ++ [Reason.moderateTime])
  else if 15 ≤ days_to_exp ∧ days_to_exp ≤ 30 then (s.1 + 1, s.2 ++ [Reason.longerTime])
  else (s.1, s.2 ++ [Reason.beyond30])

/-- Lines 90-113 of app.py: the moneyness block.  Any option_type other than
the string call takes the else (put) branch. -/
def moneynessBlock (option_type : String) (moneyness_ratio : ℚ) (s : ScoreState) : ScoreState :=
  if option_type = "call" then
    if moneyness_ratio ≥ 1.05 then (s.1 + 2, s.2 ++ [Reason.deepITMCall])
    else if 1.0 ≤ moneyness_ratio ∧ moneyness_ratio < 1.05 then (s.1 + 1, s.2 ++ [Reason.slightlyITMCall])
    else if 0.95 ≤ moneyness_ratio ∧ moneyness_ratio < 1.0 then (s.1 + 1, s.2 ++ [Reason.nearATMCall])
    else (s.1, s.2 ++ [Reason.otmCall])
  else
    if moneyness_ratio ≤ 0.95 then (s.1 + 2, s.2 ++ [Reason.deepITMPut])
    else if 0.95 < moneyness_ratio ∧ moneyness_ratio ≤ 1.0 then (s.1 + 1, s.2 ++ [Reason.slightlyITMPut])
    else if 1.0 < moneyness_ratio ∧ moneyness_ratio ≤ 1.05 then (s.1 + 1, s.2 ++ [Reason.nearATMPut])
    else (s.1, s.2 ++ [Reason.otmPut])

/-- Lines 121-135 of app.py: the premium-composition scoring, taking
intrinsic_value as an argument because its computation at lines 116-119 reads
the undefined name strike and so never completes in the program itself.
Line 122 guards the division: value_ratio is 0 when premium is 0. -/
def premiumBlock (intrinsic_value premium : ℚ) (s : ScoreState) : ScoreState :=
  let extrinsic_value := premium - intrinsic_value
  let value_ratio := if premium ≠ 0 then extrinsic_value / premium else 0
  if intrinsic_value > 0 ∧ value_ratio ≤ 0.3 then (s.1 + 2, s.2 ++ [Reason.mostlyIntrinsic])
  else if value_ratio ≤ 0.6 then (s.1 + 1, s.2 ++ [Reason.decentBalance])
  else if value_ratio > 0.9 then (s.1 - 2, s.2 ++ [Reason.mostlyExtrinsic])
  else (s.1, s.2 ++ [Reason.premiumMixOk])

/-- Lines 138-147 of app.py: the verdict thresholds on the summed score. -/
def verdict_of_score (score : Int) : String :=
  if score ≥ 9 then "Strong Buy"
  else if score ≥ 7 then "Buy"
  else if score ≥ 5 then "Mild Buy"
  else if score ≥ 3 then "Hold"
  else "Avoid"

/-- Lines 15-113 of app.py: the state of (score, reasons) after the seven
category blocks that actually execute, in source order: trend, RSI, delta
tier, implied volatility, liquidity, time to expiration, moneyness.
moneyness_pct and premium are omitted: before line 116 the former appears
only inside reason strings and the latter is not read at all. -/
def score_option_pre (stock_price ma20 ma50 rsi delta iv : ℚ)
    (volume open_interest days_to_exp : Int) (option_type : String)
    (moneyness_ratio : ℚ) : ScoreState :=
  moneynessBlock option_type moneyness_ratio
    (timeBlock days_to_exp delta
      (liquidityBlock volume open_interest
        (ivBlock iv
          (deltaBlock delta
            (rsiBlock option_type rsi
              (trendBlock option_type stock_price ma20 ma50 initState))))))

/-- Lines 13-149 of app.py: score_option with its full parameter list.  The
seven category blocks run (their result is then lost with the exception),
after which line 117 or 119 evaluates the free name strike; strike is neither
a parameter nor a module-level binding (it is a local of main), so the call
raises NameError and neither premiumBlock, verdict_of_score, nor the return
at line 149 is reached. -/
def score_option (stock_price ma20 ma50 rsi delta iv : ℚ)
    (volume open_interest days_to_exp : Int) (option_type : String)
    (moneyness_pct moneyness_ratio premium : ℚ) : PyResult (String × List Reason) :=
  let _s := score_option_pre stock_price ma20 ma50 rsi delta iv
    volume open_interest days_to_exp option_type moneyness_ratio
  PyResult.nameError "strike"

/-- Lines 6-11 of app.py: calendar-day difference, with dates modelled as day
ordinals (the isinstance branches only normalise datetime to date). -/
def get_days_to_expiration (expiration_date purchase_date : Int) : Int :=
  expiration_date - purchase_date

/-- Line 221 of app.py (main): moneyness_ratio = 1 + moneyness_pct / 100,
computed the same way for every row, with no branch on the option type. -/
def main_moneyness_ratio (moneyness_pct : ℚ) : ℚ :=
  1 + moneyness_pct / 100

/-- Modelled from the spec for comparison with main_moneyness_ratio: the
convention stated in the spec, ratio = 1 + pct/100 for a call and
ratio = 1 - pct/100 for a put. -/
def spec_moneyness_ratio (option_type : String) (moneyness_pct : ℚ) : ℚ :=
  if option_type = "call" then 1 + moneyness_pct / 100 else 1 - moneyness_pct / 100

/-- Each block only adds to the score and appends to the reasons: trend. -/
theorem trendBlock_decomp (t : String) (sp a b : ℚ) (s : ScoreState) :
    trendBlock t sp a b s =
      (s.1 + (trendBlock t sp a b initState).1, s.2 ++ (trendBlock t sp a b initState).2) := by
  unfold trendBlock
  split_ifs <;> simp

/-- Each block only adds to the score and appends to the reasons: RSI. -/
theorem rsiBlock_decomp (t : String) (r : ℚ) (s : ScoreState) :
    rsiBlock t r s =
      (s.1 + (rsiBlock t r initState).1, s.2 ++ (rsiBlock t r initState).2) := by
  unfold rsiBlock
  split_ifs <;> simp

/-- Each block only adds to the score and appends to the reasons: delta tier. -/
theorem deltaBlock_decomp (d : ℚ) (s : ScoreState) :
    deltaBlock d s =
      (s.1 + (deltaBlock d initState).1, s.2 ++ (deltaBlock d initState).2) := by
  unfold deltaBlock
  split_ifs <;> simp

/-- Each block only adds to the score and appends to the reasons: implied volatility. -/
theorem ivBlock_decomp (iv : ℚ) (s : ScoreState) :
    ivBlock iv s =
      (s.1 + (ivBlock iv initState).1, s.2 ++ (ivBlock iv initState).2) := by
  unfold ivBlock
  split_ifs <;> simp

/-- Each block only adds to the score and appends to the reasons: liquidity. -/
theorem liquidityBlock_decomp (v oi : Int) (s : ScoreState) :
    liquidityBlock v oi s =
      (s.1 + (liquidityBlock v oi initState).1, s.2 ++ (liquidityBlock v oi initState).2) := by
  unfold liquidityBlock
  split_ifs <;> simp

/-- Each block only adds to the score and appends to the reasons: time to expiration. -/
theorem timeBlock_decomp (dte : Int) (d : ℚ) (s : ScoreState) :
    timeBlock dte d s =
      (s.1 + (timeBlock dte d initState).1, s.2 ++ (timeBlock dte d initState).2) := by
  unfold timeBlock
  split_ifs <;> simp

/-- Each block only adds to the score and appends to the reasons: moneyness. -/
theorem moneynessBlock_decomp (t : String) (mr : ℚ) (s : ScoreState) :
    moneynessBlock t mr s =
      (s.1 + (moneynessBlock t mr initState).1, s.2 ++ (moneynessBlock t mr initState).2) := by
  unfold moneynessBlock
  split_ifs <;> simp

/-- The accumulated state of score_option is the blockwise sum of the seven
contributions and the concatenation of the seven reason lists, in source
order. -/
theorem score_option_pre_decomp (sp a b r d iv : ℚ) (v oi dte : Int) (t : String) (mr : ℚ) :
    score_option_pre sp a b r d iv v oi dte t mr =
      ((trendBlock t sp a b initState).1 + (rsiBlock t r initState).1 +
         (deltaBlock d initState).1 + (ivBlock iv initState).1 +
         (liquidityBlock v oi initState).1 + (timeBlock dte d initState).1 +
         (moneynessBlock t mr initState).1,
       (trendBlock t sp a b initState).2 ++ (rsiBlock t r initState).2 ++
         (deltaBlock d initState).2 ++ (ivBlock iv initState).2 ++
         (liquidityBlock v oi initState).2 ++ (timeBlock dte d initState).2 ++
         (moneynessBlock t mr initState).2) := by
  unfold score_option_pre
  rw [moneynessBlock_decomp, timeBlock_decomp, liquidityBlock_decomp, ivBlock_decomp,
    deltaBlock_decomp, rsiBlock_decomp]

/-- The trend block always appends exactly one reason. -/
theorem trendBlock_len (t : String) (sp a b : ℚ) :
    (trendBlock t sp a b initState).2.length = 1 := by
  unfold trendBlock
  split_ifs <;> rfl

/-- The RSI block appends at most one reason. -/
theorem rsiBlock_len_le (t : String) (r : ℚ) :
    (rsiBlock t r initState).2.length ≤ 1 := by
  unfold rsiBlock
  split_ifs <;> simp

/-- The delta tier block always appends exactly one reason. -/
theorem deltaBlock_len (d : ℚ) : (deltaBlock d initState).2.length = 1 := by
  unfold deltaBlock
  split_ifs <;> rfl

/-- The implied-volatility block always appends exactly one reason. -/
theorem ivBlock_len (iv : ℚ) : (ivBlock iv initState).2.length = 1 := by
  unfold ivBlock
  split_ifs <;> rfl

/-- The liquidity block always appends exactly one reason. -/
theorem liquidityBlock_len (v oi : Int) : (liquidityBlock v oi initState).2.length = 1 := by
  unfold liquidityBlock
  split_ifs <;> rfl

/-- The time block always appends exactly one reason. -/
theorem timeBlock_len (dte : Int) (d : ℚ) : (timeBlock dte d initState).2.length = 1 := by
  unfold timeBlock
  split_ifs <;> rfl

/-- The moneyness block always appends exactly one reason. -/
theorem moneynessBlock_len (t : String) (mr : ℚ) :
    (moneynessBlock t mr initState).2.length = 1 := by
  unfold moneynessBlock
  split_ifs <;> rfl

/-- The reasons accumulated by score_option number exactly six plus however
many (zero or one) the RSI block appended. -/
theorem score_option_pre_len (sp a b r d iv : ℚ) (v oi dte : Int) (t : String) (mr : ℚ) :
    (score_option_pre sp a b r d iv v oi dte t mr).2.length =
      6 + (rsiBlock t r initState).2.length := by
  rw [score_option_pre_decomp]
  simp [trendBlock_len, deltaBlock_len, ivBlock_len, liquidityBlock_len, timeBlock_len,
    moneynessBlock_len]
  omega

/-- Claim C1, counterexample: at a concrete observation with delta 0.2 (below
0.35), score_option does not return the rating Avoid with a single reason; it
raises NameError on the undefined name strike, and before that point seven
category reasons have been accumulated, so the other category evaluators do
run. -/
theorem C1_counterexample :
    score_option 100 95 90 60 0.2 90 600 600 10 "call" 5.3 1.053 6 =
      PyResult.nameError "strike" ∧
    (score_option_pre 100 95 90 60 0.2 90 600 600 10 "call" 1.053).2.length = 7 := by
  constructor
  · rfl
  · norm_num [score_option_pre, trendBlock, rsiBlock, deltaBlock, ivBlock, liquidityBlock,
      timeBlock, moneynessBlock]

/-- Claim C1, amended: there is no delta pre-filter.  When delta is below
0.35 the delta tier merely contributes 0 and appends the single low-delta
reason, the remaining category blocks still run (at least six reasons are
accumulated in total), and score_option then fails with NameError on the
undefined name strike instead of returning any rating. -/
theorem C1_no_delta_short_circuit (sp a b r d iv : ℚ) (v oi dte : Int)
    (pct mr prem : ℚ) (h : d < 0.35) :
    deltaBlock d initState = (0, [Reason.lowDelta]) ∧
    score_option sp a b r d iv v oi dte "call" pct mr prem = PyResult.nameError "strike" ∧
    6 ≤ (score_option_pre sp a b r d iv v oi dte "call" mr).2.length := by
  refine ⟨?_, rfl, ?_⟩
  · unfold deltaBlock
    rw [if_neg (by intro h2; exact absurd h (by norm_num at h2 ⊢; linarith)),
      if_neg (by intro h2; exact absurd h (by push_neg; exact h2.1))]
    rfl
  · rw [score_option_pre_len]
    omega

/-- Claim C1, witness for the amended theorem at a concrete input. -/
theorem C1_witness :
    deltaBlock 0.2 initState = (0, [Reason.lowDelta]) ∧
    score_option 100 95 90 60 0.2 90 600 600 10 "call" 5.3 1.1 6 = PyResult.nameError "strike" ∧
    6 ≤ (score_option_pre 100 95 90 60 0.2 90 600 600 10 "call" 1.1).2.length :=
  C1_no_delta_short_circuit 100 95 90 60 0.2 90 600 600 10 5.3 1.1 6 (by norm_num)

/-- Claim C2: the premium-composition step of score_option reads the name
strike, which is neither a parameter of score_option nor a module-level
binding, so every call to score_option reaches that step (there is no earlier
return in the body) and fails with NameError rather than returning a
verdict. -/
theorem C2_strike_undefined (sp a b r d iv : ℚ) (v oi dte : Int) (t : String)
    (pct mr prem : ℚ) :
    score_option sp a b r d iv v oi dte t pct mr prem = PyResult.nameError "strike" ∧
    ∀ verdict reasons, score_option sp a b r d iv v oi dte t pct mr prem ≠
      PyResult.ok (verdict, reasons) := by
  exact ⟨rfl, fun verdict reasons h => PyResult.noConfusion h⟩

/-- Claim C3, counterexample: at the concrete valid observation used by the
specification scenario (call, price 100, ma20 95, ma50 90, rsi 60, delta
0.75, iv 90, volume 600, open interest 600, 10 days, moneyness 5.3 percent,
premium 6), score_option returns no score at all: it fails with NameError on
the undefined name strike. -/
theorem C3_counterexample :
    score_option 100 95 90 60 0.75 90 600 600 10 "call" 5.3 1.053 6 =
      PyResult.nameError "strike" ∧
    (score_option_pre 100 95 90 60 0.75 90 600 600 10 "call" 1.053).1 = 12 := by
  constructor
  · rfl
  · norm_num [score_option_pre, trendBlock, rsiBlock, deltaBlock, ivBlock, liquidityBlock,
      timeBlock, moneynessBlock]

/-- Claim C3, amended: the body of score_option contains eight category
blocks, not nine — there is no cheap/expensive premium-versus-delta rule —
and only the first seven execute: the accumulated score is exactly the sum of
the seven contributions of trend, RSI, delta, implied volatility, liquidity,
time to expiration, and moneyness (no hidden global bonus), after which the
premium-composition step fails with NameError on the undefined name strike,
so no score is ever returned. -/
theorem C3_score_is_sum_of_seven (sp a b r d iv : ℚ) (v oi dte : Int) (t : String)
    (pct mr prem : ℚ) :
    (score_option_pre sp a b r d iv v oi dte t mr).1 =
      (trendBlock t sp a b initState).1 + (rsiBlock t r initState).1 +
        (deltaBlock d initState).1 + (ivBlock iv initState).1 +
        (liquidityBlock v oi initState).1 + (timeBlock dte d initState).1 +
        (moneynessBlock t mr initState).1 ∧
    score_option sp a b r d iv v oi dte t pct mr prem = PyResult.nameError "strike" := by
  refine ⟨?_, rfl⟩
  rw [score_option_pre_decomp]

/-- Claim C4, counterexample: the concrete observation with option_type set
to the unrecognized string banana is not rejected; it is scored along the put
branch, producing exactly the same accumulated state as the same observation
with option_type put, including the put-branch reasons. -/
theorem C4_counterexample :
    score_option_pre 100 95 90 40 0.5 90 600 600 10 "banana" 1.053 =
      score_option_pre 100 95 90 40 0.5 90 600 600 10 "put" 1.053 ∧
    score_option_pre 100 95 90 40 0.5 90 600 600 10 "banana" 1.053 =
      (7, [Reason.weakDowntrend, Reason.rsiBearish, Reason.moderateDelta, Reason.moderateIV,
        Reason.highLiquidity, Reason.moderateTime, Reason.otmPut]) := by
  have hb : ¬ (("banana" : String) = "call") := by decide
  have hp : ¬ (("put" : String) = "call") := by decide
  constructor <;>
    norm_num [score_option_pre, trendBlock, rsiBlock, deltaBlock, ivBlock, liquidityBlock,
      timeBlock, moneynessBlock, if_neg hb, if_neg hp]

/-- Claim C4, amended: score_option performs no validation of option_type.
Every option_type other than the string call — the unrecognized values
included — is silently scored along the put (else) branch: the accumulated
state is identical to that of the same observation with option_type put, and
the eventual failure of the call is the option_type-independent NameError on
strike, not an input error for the unrecognized type. -/
theorem C4_no_option_type_check (sp a b r d iv : ℚ) (v oi dte : Int) (t : String)
    (pct mr prem : ℚ) (h : t ≠ "call") :
    score_option_pre sp a b r d iv v oi dte t mr =
      score_option_pre sp a b r d iv v oi dte "put" mr ∧
    score_option sp a b r d iv v oi dte t pct mr prem =
      score_option sp a b r d iv v oi dte "put" pct mr prem := by
  have h2 : ("put" : String) ≠ "call" := by decide
  refine ⟨?_, rfl⟩
  simp only [score_option_pre, trendBlock, rsiBlock, moneynessBlock, if_neg h, if_neg h2]

/-- Claim C4, witness for the amended theorem at a concrete input. -/
theorem C4_witness :
    score_option_pre 100 95 90 40 0.5 90 600 600 10 "x" 1.053 =
      score_option_pre 100 95 90 40 0.5 90 600 600 10 "put" 1.053 ∧
    score_option 100 95 90 40 0.5 90 600 600 10 "x" 5.3 1.053 6 =
      score_option 100 95 90 40 0.5 90 600 600 10 "put" 5.3 1.053 6 :=
  C4_no_option_type_check 100 95 90 40 0.5 90 600 600 10 "x" 5.3 1.053 6 (by decide)

/-- Claim C5, counterexample: for a put row with moneyness_pct = 10, main
derives moneyness_ratio = 1.1, whereas the convention claimed for puts gives
0.9; the two disagree. -/
theorem C5_counterexample :
    main_moneyness_ratio 10 = 1.1 ∧
    spec_moneyness_ratio "put" 10 = 0.9 ∧
    main_moneyness_ratio 10 ≠ spec_moneyness_ratio "put" 10 := by
  have hp : ¬ (("put" : String) = "call") := by decide
  refine ⟨by norm_num [main_moneyness_ratio], by norm_num [spec_moneyness_ratio, if_neg hp], ?_⟩
  norm_num [main_moneyness_ratio, spec_moneyness_ratio, if_neg hp]

/-- Claim C5, amended: main derives moneyness_ratio = 1 + moneyness_pct/100
uniformly, with no branch on the option type; this matches the claimed call
convention for every pct, and disagrees with the claimed put convention
1 - moneyness_pct/100 for every pct other than 0, so the ratio fed to the put
moneyness tiers is 1 + moneyness_pct/100, not 1 - moneyness_pct/100. -/
theorem C5_uniform_ratio (pct : ℚ) (h : pct ≠ 0) :
    main_moneyness_ratio pct = spec_moneyness_ratio "call" pct ∧
    main_moneyness_ratio pct ≠ spec_moneyness_ratio "put" pct := by
  have hp : ¬ (("put" : String) = "call") := by decide
  constructor
  · simp [main_moneyness_ratio, spec_moneyness_ratio]
  · simp only [main_moneyness_ratio, spec_moneyness_ratio, if_neg hp]
    intro h2
    apply h
    have h3 : pct / 100 = - (pct / 100) := by linarith
    have h4 : pct / 100 = 0 := by linarith
    field_simp at h4
    exact h4

/-- Claim C5, witness for the amended theorem at pct = 10. -/
theorem C5_witness :
    main_moneyness_ratio 10 = spec_moneyness_ratio "call" 10 ∧
    main_moneyness_ratio 10 ≠ spec_moneyness_ratio "put" 10 :=
  C5_uniform_ratio 10 (by norm_num)

/-- Claim C6: the verdict mapping at the end of score_option is the fixed
threshold function of the summed score: at least 9 gives Strong Buy, 7 to 8
gives Buy, 5 to 6 gives Mild Buy, 3 to 4 gives Hold, and below 3 gives
Avoid. -/
theorem C6_verdict_thresholds (s : Int) :
    (9 ≤ s → verdict_of_score s = "Strong Buy") ∧
    (7 ≤ s ∧ s < 9 → verdict_of_score s = "Buy") ∧
    (5 ≤ s ∧ s < 7 → verdict_of_score s = "Mild Buy") ∧
    (3 ≤ s ∧ s < 5 → verdict_of_score s = "Hold") ∧
    (s < 3 → verdict_of_score s = "Avoid") := by
  unfold verdict_of_score
  refine ⟨fun h => ?_, fun h => ?_, fun h => ?_, fun h => ?_, fun h => ?_⟩ <;>
    split_ifs <;> first | rfl | omega

/-- Claim C6, witness: the thresholds applied at the concrete scores
10, 7, 5, 3 and 2. -/
theorem C6_witness :
    verdict_of_score 10 = "Strong Buy" ∧ verdict_of_score 7 = "Buy" ∧
    verdict_of_score 5 = "Mild Buy" ∧ verdict_of_score 3 = "Hold" ∧
    verdict_of_score 2 = "Avoid" :=
  ⟨(C6_verdict_thresholds 10).1 (by norm_num),
   (C6_verdict_thresholds 7).2.1 (by norm_num),
   (C6_verdict_thresholds 5).2.2.1 (by norm_num),
   (C6_verdict_thresholds 3).2.2.2.1 (by norm_num),
   (C6_verdict_thresholds 2).2.2.2.2 (by norm_num)⟩

/-- Claim C7: the implied-volatility block is a non-monotonic plateau —
contribution +1 with the low-IV reason for iv below 80, +1 with the
normal-volatility reason for iv from 80 to 150, and 0 with the risk caution
for iv above 150 — and consequently, all other fields held fixed, the score
accumulated by score_option at iv = 70 equals the one at iv = 100 and is at
least the one at iv = 200. -/
theorem C7_iv_plateau (sp a b r d : ℚ) (v oi dte : Int) (t : String) (mr iv : ℚ) :
    (iv < 80 → ivBlock iv initState = (1, [Reason.lowIV])) ∧
    (80 ≤ iv ∧ iv ≤ 150 → ivBlock iv initState = (1, [Reason.moderateIV])) ∧
    (iv > 150 → ivBlock iv initState = (0, [Reason.veryHighIV])) ∧
    (score_option_pre sp a b r d 70 v oi dte t mr).1 =
      (score_option_pre sp a b r d 100 v oi dte t mr).1 ∧
    (score_option_pre sp a b r d 200 v oi dte t mr).1 ≤
      (score_option_pre sp a b r d 70 v oi dte t mr).1 := by
  refine ⟨fun h => ?_, fun h => ?_, fun h => ?_, ?_, ?_⟩
  · unfold ivBlock
    rw [if_neg (by push_neg; linarith), if_neg (by push_neg; intro h2; linarith)]
    rfl
  · unfold ivBlock
    rw [if_neg (by push_neg; linarith [h.2]), if_pos h]
    rfl
  · unfold ivBlock
    rw [if_pos h]
    rfl
  · rw [score_option_pre_decomp, score_option_pre_decomp]
    have h70 : (ivBlock 70 initState).1 = 1 := by norm_num [ivBlock]
    have h100 : (ivBlock 100 initState).1 = 1 := by norm_num [ivBlock]
    omega
  · rw [score_option_pre_decomp, score_option_pre_decomp]
    have h70 : (ivBlock 70 initState).1 = 1 := by norm_num [ivBlock]
    have h200 : (ivBlock 200 initState).1 = 0 := by norm_num [ivBlock]
    omega

/-- Claim C7, witness: the plateau instantiated at a concrete observation and
at iv = 70, iv = 100 and iv = 200. -/
theorem C7_witness :
    ((70 : ℚ) < 80 → ivBlock 70 initState = (1, [Reason.lowIV])) ∧
    ((80 : ℚ) ≤ 70 ∧ (70 : ℚ) ≤ 150 → ivBlock 70 initState = (1, [Reason.moderateIV])) ∧
    ((70 : ℚ) > 150 → ivBlock 70 initState = (0, [Reason.veryHighIV])) ∧
    (score_option_pre 100 95 90 60 0.75 70 600 600 10 "call" 1.053).1 =
      (score_option_pre 100 95 90 60 0.75 100 600 600 10 "call" 1.053).1 ∧
    (score_option_pre 100 95 90 60 0.75 200 600 600 10 "call" 1.053).1 ≤
      (score_option_pre 100 95 90 60 0.75 70 600 600 10 "call" 1.053).1 :=
  C7_iv_plateau 100 95 90 60 0.75 600 600 10 "call" 1.053 70

/-- Claim C8, counterexample: for a call observation with RSI 40 (all inputs
present), the RSI block appends no reason at all, and the reasons accumulated
by score_option number six, one fewer than the number of categories
evaluated. -/
theorem C8_counterexample :
    rsiBlock "call" 40 initState = (0, []) ∧
    (score_option_pre 100 95 90 40 0.75 90 600 600 10 "call" 1.053).2.length = 6 := by
  constructor
  · norm_num [rsiBlock]
  · norm_num [score_option_pre, trendBlock, rsiBlock, deltaBlock, ivBlock, liquidityBlock,
      timeBlock, moneynessBlock]

/-- Claim C8, amended: of the seven category blocks that execute, the trend,
delta, implied-volatility, liquidity, time-decay and moneyness blocks each
append exactly one reason, but the RSI block appends at most one and appends
none in its neutral case — in particular, for a call with RSI below 50 it
appends nothing — so the accumulated reasons list has length exactly six plus
the zero-or-one reasons of the RSI block (the premium-composition block never
executes because of the NameError on strike). -/
theorem C8_reason_counts (sp a b r d iv : ℚ) (v oi dte : Int) (t : String) (mr : ℚ) :
    (score_option_pre sp a b r d iv v oi dte t mr).2.length =
      6 + (rsiBlock t r initState).2.length ∧
    (rsiBlock t r initState).2.length ≤ 1 ∧
    (r < 50 → rsiBlock "call" r initState = (0, [])) := by
  refine ⟨score_option_pre_len sp a b r d iv v oi dte t mr, rsiBlock_len_le t r, fun h => ?_⟩
  unfold rsiBlock
  rw [if_pos rfl, if_neg (by push_neg; intro h2; linarith), if_neg (by push_neg; linarith)]

/-- Claim C8, witness for the amended theorem at a concrete call observation
with RSI 40. -/
theorem C8_witness :
    (score_option_pre 100 95 90 40 0.75 90 600 600 10 "call" 1.053).2.length =
      6 + (rsiBlock "call" 40 initState).2.length ∧
    (rsiBlock "call" 40 initState).2.length ≤ 1 ∧
    ((40 : ℚ) < 50 → rsiBlock "call" 40 initState = (0, [])) :=
  C8_reason_counts 100 95 90 40 0.75 90 600 600 10 "call" 1.053

/-- Claim C9, counterexample: with premium 0 the division is indeed guarded
(value_ratio is 0), but the premium-composition scoring is not neutral there:
at the concrete intrinsic value 5 of the specification scenario (put,
underlying 50, strike 55) it contributes +2 with the mostly-intrinsic reason,
and at intrinsic value 0 it contributes +1 with the decent-balance reason —
never 0 with the neutral premium-mix reason. -/
theorem C9_counterexample :
    premiumBlock 5 0 initState = (2, [Reason.mostlyIntrinsic]) ∧
    premiumBlock 0 0 initState = (1, [Reason.decentBalance]) := by
  constructor <;> norm_num [premiumBlock]

/-- Claim C9, amended: when premium is 0 the guard at line 122 defines
value_ratio as 0, so no division is attempted; but the category then
contributes +2 with the mostly-intrinsic reason whenever intrinsic value is
positive and +1 with the decent-balance reason otherwise — not a neutral 0
score delta with a neutral reason.  (In score_option itself this step is
additionally unreachable: the NameError on strike precedes it.) -/
theorem C9_zero_premium_not_neutral (intrinsic_value : ℚ) (s : ScoreState) :
    premiumBlock intrinsic_value 0 s =
      (if intrinsic_value > 0 then (s.1 + 2, s.2 ++ [Reason.mostlyIntrinsic])
       else (s.1 + 1, s.2 ++ [Reason.decentBalance])) := by
  unfold premiumBlock
  norm_num

/-- Claim C10, counterexample: a purchase date 3 days after the expiration
date is not rejected — get_days_to_expiration returns -3 and the time-decay
block scores it through the at-most-5-days branch, contributing +2 for a
delta of 0.75; no InvalidTradeParameters error exists anywhere in the
program. -/
theorem C10_counterexample :
    get_days_to_expiration 100 103 = -3 ∧
    timeBlock (get_days_to_expiration 100 103) 0.75 initState =
      (2, [Reason.veryShortHighDelta]) := by
  constructor
  · rfl
  · norm_num [timeBlock, get_days_to_expiration]

/-- Claim C10, amended: nothing validates the dates.  Whenever purchase_date
is after expiration_date, get_days_to_expiration returns their negative
difference, and score_option silently scores that negative days_to_exp
through the at-most-5-days branch of the time-decay block: +2 with the
short-expiration reason when delta is at least 0.7, otherwise 0 with the
high-risk reason.  No error is raised for the invalid trade. -/
theorem C10_negative_days_scored (expiration_date purchase_date : Int) (d : ℚ)
    (h : expiration_date < purchase_date) :
    get_days_to_expiration expiration_date purchase_date < 0 ∧
    timeBlock (get_days_to_expiration expiration_date purchase_date) d initState =
      (if d ≥ 0.7 then ((2 : Int), [Reason.veryShortHighDelta])
       else ((0 : Int), [Reason.veryShortLowDelta])) := by
  constructor
  · unfold get_days_to_expiration
    omega
  · unfold timeBlock get_days_to_expiration
    rw [if_pos (by omega : expiration_date - purchase_date ≤ 5)]
    split_ifs with hd
    · rfl
    · rfl

/-- Claim C10, witness for the amended theorem at expiration day 100,
purchase day 103 and delta 0.75. -/
theorem C10_witness :
    get_days_to_expiration 100 103 < 0 ∧
    timeBlock (get_days_to_expiration 100 103) 0.75 initState =
      (if (0.75 : ℚ) ≥ 0.7 then ((2 : Int), [Reason.veryShortHighDelta])
       else ((0 : Int), [Reason.veryShortLowDelta])) :=
  C10_negative_days_scored 100 103 0.75 (by norm_num)
